import Mathlib

/-!
# Verification of the f451-piRED SenseMon core

Shallow embedding of the upload-cadence / rate-limit-recovery loop and the
CPU-temperature compensation filter of `f451_pired/sensemon.py`, together
with theorems settling the specification claims about them.

Floating-point sensor values and times are modelled as rationals; the
arithmetic performed by the core (additions, subtractions, one division by
the damping factor, one division by the window capacity) is exact on the
inputs the claims use.
-/

namespace PiRed

/-! ## Compensation filter (sensemon.py, `main`, lines 589-601 and 673-686) -/

/-- Configuration of the compensation filter: `TEMP_COMP` damping factor and
`CPU_TEMPS` window capacity. -/
structure CompConfig where
  tempCompFactor : ℚ
  cpuTempsQMaxLen : ℕ
  deriving DecidableEq

/-- `tempCompYN = tempCompFactor > 0` (sensemon.py line 594). -/
def CompConfig.tempCompYN (cfg : CompConfig) : Bool :=
  decide (0 < cfg.tempCompFactor)

/-- Python `collections.deque` append with a `maxlen` bound: the new element
goes on the right and elements are discarded from the left until the length
is at most `maxlen`. -/
def dequeAppend (maxlen : ℕ) (q : List ℚ) (x : ℚ) : List ℚ :=
  (q ++ [x]).drop (q.length + 1 - maxlen)

/-- Initialization of the CPU-temperature window (sensemon.py lines 596-601):
`cpuTempsQ = []`, and when compensation is enabled it becomes a deque
pre-filled with `cpuTempsQMaxLen` copies of the first CPU-proxy reading. -/
def initCpuTempsQ (cfg : CompConfig) (firstCpuTemp : ℚ) : List ℚ :=
  if 0 < cfg.tempCompFactor then
    List.replicate cfg.cpuTempsQMaxLen firstCpuTemp
  else
    []

/-- The average the code computes: `sum(cpuTempsQ) / float(cpuTempsQMaxLen)`
(sensemon.py line 683). Note the divisor is the fixed capacity. -/
def codeCpuAvg (maxlen : ℕ) (q : List ℚ) : ℚ :=
  q.sum / (maxlen : ℚ)

/-- The true arithmetic mean of a window's contents. -/
def listMean (q : List ℚ) : ℚ :=
  q.sum / (q.length : ℚ)

/-- One tick of the temperature pipeline (sensemon.py lines 673-686):
`tempRaw = tempComp = SENSE_HAT.get_temperature()`; when compensation is
enabled, append the CPU-proxy reading to the window, compute
`cpuTempAvg = sum(cpuTempsQ) / float(cpuTempsQMaxLen)` and
`tempComp = tempRaw - ((cpuTempAvg - tempRaw) / tempCompFactor)`.
Returns the compensated temperature and the updated window. -/
def compTick (cfg : CompConfig) (q : List ℚ) (tempRaw cpuTemp : ℚ) : ℚ × List ℚ :=
  if 0 < cfg.tempCompFactor then
    let q1 := dequeAppend cfg.cpuTempsQMaxLen q cpuTemp
    let cpuTempAvg := codeCpuAvg cfg.cpuTempsQMaxLen q1
    (tempRaw - ((cpuTempAvg - tempRaw) / cfg.tempCompFactor), q1)
  else
    (tempRaw, q)

/-- Fold `compTick` over a list of `(tempRaw, cpuTemp)` tick inputs,
returning the final window. -/
def runComp (cfg : CompConfig) (q : List ℚ) (ticks : List (ℚ × ℚ)) : List ℚ :=
  ticks.foldl (fun acc t => (compTick cfg acc t.1 t.2).2) q

/-! ## Upload scheduler (sensemon.py, `main`, lines 644-737) -/

/-- Outcome of one upload attempt, as signalled by the Adafruit IO client:
no exception (`success`), `ThrottlingError` (`rateLimited`), or
`RequestError` (`fatal`). -/
inductive UploadOutcome where
  | success
  | rateLimited
  | fatal
  deriving DecidableEq, Repr

/-- Scheduler configuration: `FREQ`, `DELAY`, `THROTTLE` settings, the
`--uploads` cap (default `-1` = unlimited), and the `--cron` flag
(`ioUploadAndExit`). -/
structure SchedConfig where
  ioFreq : ℚ
  ioDelay : ℚ
  ioThrottle : ℚ
  maxUploads : ℤ
  ioUploadAndExit : Bool
  deriving DecidableEq

/-- Mutable state of the main loop that the upload attempt block touches:
the current target interval `uploadDelay`, the elapsed-time origin
`timeUpdate`, the success counter `numUploads`, and the loop-termination
flag `exitNow`. -/
structure SchedState where
  uploadDelay : ℚ
  timeUpdate : ℚ
  numUploads : ℤ
  exitNow : Bool
  deriving DecidableEq

/-- Loop-entry state (sensemon.py lines 645-651): `timeUpdate = time.time()`,
`uploadDelay = ioDelay` (so that the first reading is not uploaded
immediately), `numUploads = 0`, `exitNow = False`. -/
def initState (cfg : SchedConfig) (t0 : ℚ) : SchedState :=
  { uploadDelay := cfg.ioDelay
    timeUpdate := t0
    numUploads := 0
    exitNow := false }

/-- The `try/except/else/finally` block around the upload attempt
(sensemon.py lines 697-737), as a function of the attempt's outcome.
`RequestError` calls `sys.exit(1)`, terminating the process with status 1;
`ThrottlingError` does `uploadDelay += ioThrottle`; the `else` branch does
`numUploads += 1`, `uploadDelay = ioFreq` and
`exitNow = exitNow or ioUploadAndExit`; the `finally` clause always runs
`timeUpdate = timeCurrent` and
`exitNow = (maxUploads > 0) and (numUploads >= maxUploads)`. -/
def applyOutcome (cfg : SchedConfig) (s : SchedState) (timeCurrent : ℚ)
    (o : UploadOutcome) : Except ℤ SchedState :=
  match o with
  | .fatal => Except.error 1
  | .rateLimited =>
      let s1 := { s with uploadDelay := s.uploadDelay + cfg.ioThrottle }
      Except.ok { s1 with
        timeUpdate := timeCurrent
        exitNow := decide (0 < cfg.maxUploads) && decide (cfg.maxUploads ≤ s1.numUploads) }
  | .success =>
      let s1 := { s with
        numUploads := s.numUploads + 1
        uploadDelay := cfg.ioFreq
        exitNow := s.exitNow || cfg.ioUploadAndExit }
      Except.ok { s1 with
        timeUpdate := timeCurrent
        exitNow := decide (0 < cfg.maxUploads) && decide (cfg.maxUploads ≤ s1.numUploads) }

/-- One loop iteration's upload decision (sensemon.py lines 662-663 and 695):
`timeSinceUpdate = timeCurrent - timeUpdate`; the attempt block runs only
when `timeSinceUpdate >= uploadDelay`, otherwise the scheduler state is
untouched this tick. -/
def schedTick (cfg : SchedConfig) (s : SchedState) (timeCurrent : ℚ)
    (o : UploadOutcome) : Except ℤ SchedState :=
  if s.uploadDelay ≤ timeCurrent - s.timeUpdate then
    applyOutcome cfg s timeCurrent o
  else
    Except.ok s

/-- Run the scheduler over a sequence of loop iterations, each given by the
current wall-clock time and the outcome the upload attempt would produce at
that iteration. An `Except.error` is the process exit status. -/
def runSched (cfg : SchedConfig) (s : SchedState) :
    List (ℚ × UploadOutcome) → Except ℤ SchedState
  | [] => Except.ok s
  | (t, o) :: rest =>
      match schedTick cfg s t o with
      | Except.error c => Except.error c
      | Except.ok s1 => runSched cfg s1 rest

/-- The outcomes of the upload attempts actually made (i.e. at iterations
where the interval had elapsed) along a run, up to a fatal exit. -/
def attemptedOutcomes (cfg : SchedConfig) (s : SchedState) :
    List (ℚ × UploadOutcome) → List UploadOutcome
  | [] => []
  | (t, o) :: rest =>
      if s.uploadDelay ≤ t - s.timeUpdate then
        match applyOutcome cfg s t o with
        | Except.error _ => [o]
        | Except.ok s1 => o :: attemptedOutcomes cfg s1 rest
      else
        attemptedOutcomes cfg s rest

/-! ## Startup feed verification (sensemon.py lines 106-113) -/

/-- Module-level feed verification: the three `aio_feed_info` calls run in
one `try` block; the first `RequestError` aborts the process with
`sys.exit(1)` before the main loop is entered. Each argument is the result
of one `aio_feed_info` call (`Except.error` = the call raised
`RequestError`, carrying the error detail). On success the three feed
records are returned. -/
def startupVerifyFeeds {α β : Type} (temps press humid : Except α β) :
    Except ℤ (β × β × β) :=
  match temps with
  | Except.error _ => Except.error 1
  | Except.ok ft =>
      match press with
      | Except.error _ => Except.error 1
      | Except.ok fp =>
          match humid with
          | Except.error _ => Except.error 1
          | Except.ok fh => Except.ok (ft, fp, fh)

/-! ## The upload attempt body as shipped (sensemon.py lines 696-706) -/

/-- The body of the `try` block as it stands in the source: the
`asyncio.run(upload_sensor_data(...))` call (which would hand the rounded
compensated temperature, pressure and humidity to the upload collaborator)
is commented out, and the body is `time.sleep(10)`. Consequently no value
is handed to the upload collaborator and no upload exception can be raised,
so the block's outcome is always `success`. Returns the list of values
handed to the collaborator, and the outcome. -/
def sensemonTryBody (tempComp pressRaw humidRaw : ℚ) (ioRounding : ℕ) :
    List ℚ × UploadOutcome :=
  (([] : List ℚ), UploadOutcome.success)

/-! ## Lemmas about the compensation window -/

theorem dequeAppend_length (maxlen : ℕ) (q : List ℚ) (x : ℚ) :
    (dequeAppend maxlen q x).length = min (q.length + 1) maxlen := by
  simp [dequeAppend]
  omega

theorem dequeAppend_of_full (maxlen : ℕ) (q : List ℚ) (x : ℚ)
    (hq : q.length = maxlen) (hm : 0 < maxlen) :
    dequeAppend maxlen q x = q.tail ++ [x] := by
  have h1 : q.length + 1 - maxlen = 1 := by omega
  cases q with
  | nil =>
      simp at hq
      omega
  | cons a as =>
      simp only [dequeAppend, h1, List.cons_append, List.drop_succ_cons, List.drop_zero,
        List.tail_cons]

theorem compTick_snd_pos (cfg : CompConfig) (q : List ℚ) (a c : ℚ)
    (hF : 0 < cfg.tempCompFactor) :
    (compTick cfg q a c).2 = dequeAppend cfg.cpuTempsQMaxLen q c := by
  simp [compTick, hF]

theorem compTick_length_le (cfg : CompConfig) (q : List ℚ) (a c : ℚ)
    (h : q.length ≤ cfg.cpuTempsQMaxLen) :
    ((compTick cfg q a c).2).length ≤ cfg.cpuTempsQMaxLen := by
  by_cases hF : 0 < cfg.tempCompFactor
  · simp only [compTick_snd_pos cfg q a c hF, dequeAppend_length]
    omega
  · simp [compTick, hF]
    exact h

theorem compTick_length_eq (cfg : CompConfig) (q : List ℚ) (a c : ℚ)
    (hF : 0 < cfg.tempCompFactor) (h : q.length = cfg.cpuTempsQMaxLen) :
    ((compTick cfg q a c).2).length = cfg.cpuTempsQMaxLen := by
  simp only [compTick_snd_pos cfg q a c hF, dequeAppend_length]
  omega

theorem runComp_nil (cfg : CompConfig) (q : List ℚ) : runComp cfg q [] = q := rfl

theorem runComp_cons (cfg : CompConfig) (q : List ℚ) (t : ℚ × ℚ) (rest : List (ℚ × ℚ)) :
    runComp cfg q (t :: rest) = runComp cfg ((compTick cfg q t.1 t.2).2) rest := rfl

theorem runComp_length_le (cfg : CompConfig) :
    ∀ (ticks : List (ℚ × ℚ)) (q : List ℚ), q.length ≤ cfg.cpuTempsQMaxLen →
      (runComp cfg q ticks).length ≤ cfg.cpuTempsQMaxLen := by
  intro ticks
  induction ticks with
  | nil => intro q h; exact h
  | cons t rest ih =>
      intro q h
      rw [runComp_cons]
      exact ih _ (compTick_length_le cfg q t.1 t.2 h)

theorem runComp_length_eq (cfg : CompConfig) (hF : 0 < cfg.tempCompFactor) :
    ∀ (ticks : List (ℚ × ℚ)) (q : List ℚ), q.length = cfg.cpuTempsQMaxLen →
      (runComp cfg q ticks).length = cfg.cpuTempsQMaxLen := by
  intro ticks
  induction ticks with
  | nil => intro q h; exact h
  | cons t rest ih =>
      intro q h
      rw [runComp_cons]
      exact ih _ (compTick_length_eq cfg q t.1 t.2 hF h)

/-! ## Claims about the compensation filter -/

/-- Claim C2: for every tick, if the damping factor is positive the
compensated temperature equals `ambient - ((cpuAverage - ambient) / F)`,
where `cpuAverage` is the average of the CPU-proxy window after appending
the current tick's CPU-proxy reading; if the factor is nonpositive, the
compensated temperature is the raw ambient reading unchanged and the window
is never allocated or updated. -/
theorem compensation_formula (cfg : CompConfig) (q : List ℚ) (a c : ℚ) :
    (0 < cfg.tempCompFactor → q.length = cfg.cpuTempsQMaxLen →
      (compTick cfg q a c).1 =
        a - ((listMean (dequeAppend cfg.cpuTempsQMaxLen q c) - a) / cfg.tempCompFactor)) ∧
    (cfg.tempCompFactor ≤ 0 →
      compTick cfg q a c = (a, q) ∧ initCpuTempsQ cfg c = []) := by
  constructor
  · intro hF hq
    have hlen : (dequeAppend cfg.cpuTempsQMaxLen q c).length = cfg.cpuTempsQMaxLen := by
      rw [dequeAppend_length]
      omega
    simp [compTick, hF, codeCpuAvg, listMean, hlen]
  · intro hF
    have hF2 : ¬ 0 < cfg.tempCompFactor := not_lt.mpr hF
    simp [compTick, initCpuTempsQ, hF2]

theorem compensation_formula_witness :
    ((compTick ⟨9/4, 5⟩ (List.replicate 5 40) 20 40).1 =
      20 - ((listMean (dequeAppend 5 (List.replicate 5 40) 40) - 20) / ((9 : ℚ)/4))) ∧
    (compTick ⟨0, 5⟩ (List.replicate 5 40) 20 40 = (20, List.replicate 5 40) ∧
      initCpuTempsQ ⟨0, 5⟩ 40 = []) :=
  ⟨(compensation_formula ⟨9/4, 5⟩ (List.replicate 5 40) 20 40).1 (by norm_num) (by simp),
   (compensation_formula ⟨0, 5⟩ (List.replicate 5 40) 20 40).2 (le_refl 0)⟩

/-- Claim C3: when compensation is enabled, the window is pre-filled at
initialization with `capacity` copies of the first CPU-proxy reading, its
length never exceeds the configured capacity at any later tick, and each
append at capacity evicts exactly the oldest element (FIFO). -/
theorem window_capacity_invariant (cfg : CompConfig) (c x : ℚ) (q : List ℚ)
    (ticks : List (ℚ × ℚ)) (hF : 0 < cfg.tempCompFactor) :
    initCpuTempsQ cfg c = List.replicate cfg.cpuTempsQMaxLen c ∧
    (runComp cfg (initCpuTempsQ cfg c) ticks).length ≤ cfg.cpuTempsQMaxLen ∧
    (q.length = cfg.cpuTempsQMaxLen → 0 < cfg.cpuTempsQMaxLen →
      dequeAppend cfg.cpuTempsQMaxLen q x = q.tail ++ [x]) := by
  refine ⟨by simp [initCpuTempsQ, hF], ?_, fun hq hm => dequeAppend_of_full _ q x hq hm⟩
  apply runComp_length_le
  simp [initCpuTempsQ, hF]

theorem window_capacity_invariant_witness :
    initCpuTempsQ ⟨9/4, 3⟩ 7 = List.replicate 3 7 ∧
    (runComp ⟨9/4, 3⟩ (initCpuTempsQ ⟨9/4, 3⟩ 7) [(20, 41), (20, 42)]).length ≤ 3 ∧
    (([1, 2, 3] : List ℚ).length = 3 → 0 < 3 →
      dequeAppend 3 [1, 2, 3] 4 = ([1, 2, 3] : List ℚ).tail ++ [4]) :=
  window_capacity_invariant ⟨9/4, 3⟩ 7 4 [1, 2, 3] [(20, 41), (20, 42)] (by norm_num)

/-- Claim C10: when compensation is enabled, the window's length equals the
configured capacity at every tick (it is full from initialization onward),
so the code's `sum(cpuTempsQ) / float(cpuTempsQMaxLen)` — which divides by
the fixed capacity — always equals the true arithmetic mean of the window's
contents. -/
theorem window_always_full (cfg : CompConfig) (c : ℚ) (ticks : List (ℚ × ℚ))
    (hF : 0 < cfg.tempCompFactor) :
    (runComp cfg (initCpuTempsQ cfg c) ticks).length = cfg.cpuTempsQMaxLen ∧
    codeCpuAvg cfg.cpuTempsQMaxLen (runComp cfg (initCpuTempsQ cfg c) ticks) =
      listMean (runComp cfg (initCpuTempsQ cfg c) ticks) := by
  have hlen : (runComp cfg (initCpuTempsQ cfg c) ticks).length = cfg.cpuTempsQMaxLen := by
    apply runComp_length_eq cfg hF
    simp [initCpuTempsQ, hF]
  refine ⟨hlen, ?_⟩
  rw [codeCpuAvg, listMean, hlen]

theorem window_always_full_witness :
    (runComp ⟨9/4, 5⟩ (initCpuTempsQ ⟨9/4, 5⟩ 40) [(20, 40), (20, 50)]).length = 5 ∧
    codeCpuAvg 5 (runComp ⟨9/4, 5⟩ (initCpuTempsQ ⟨9/4, 5⟩ 40) [(20, 40), (20, 50)]) =
      listMean (runComp ⟨9/4, 5⟩ (initCpuTempsQ ⟨9/4, 5⟩ 40) [(20, 40), (20, 50)]) :=
  window_always_full ⟨9/4, 5⟩ 40 [(20, 40), (20, 50)] (by norm_num)

/-! ## Lemmas about the upload scheduler -/

theorem schedTick_due (cfg : SchedConfig) (s : SchedState) (t : ℚ) (o : UploadOutcome)
    (hdue : s.uploadDelay ≤ t - s.timeUpdate) :
    schedTick cfg s t o = applyOutcome cfg s t o := by
  simp [schedTick, hdue]

theorem schedTick_notDue (cfg : SchedConfig) (s : SchedState) (t : ℚ) (o : UploadOutcome)
    (hdue : ¬ s.uploadDelay ≤ t - s.timeUpdate) :
    schedTick cfg s t o = Except.ok s := by
  simp [schedTick, hdue]

theorem applyOutcome_success (cfg : SchedConfig) (s : SchedState) (t : ℚ) :
    applyOutcome cfg s t UploadOutcome.success =
      Except.ok
        { uploadDelay := cfg.ioFreq
          timeUpdate := t
          numUploads := s.numUploads + 1
          exitNow := decide (0 < cfg.maxUploads) && decide (cfg.maxUploads ≤ s.numUploads + 1) } :=
  rfl

theorem applyOutcome_rateLimited (cfg : SchedConfig) (s : SchedState) (t : ℚ) :
    applyOutcome cfg s t UploadOutcome.rateLimited =
      Except.ok
        { uploadDelay := s.uploadDelay + cfg.ioThrottle
          timeUpdate := t
          numUploads := s.numUploads
          exitNow := decide (0 < cfg.maxUploads) && decide (cfg.maxUploads ≤ s.numUploads) } :=
  rfl

theorem applyOutcome_fatal (cfg : SchedConfig) (s : SchedState) (t : ℚ) :
    applyOutcome cfg s t UploadOutcome.fatal = Except.error 1 :=
  rfl

theorem runSched_nil (cfg : SchedConfig) (s : SchedState) :
    runSched cfg s [] = Except.ok s :=
  rfl

theorem runSched_cons_ok (cfg : SchedConfig) (s : SchedState) (t : ℚ) (o : UploadOutcome)
    (rest : List (ℚ × UploadOutcome)) (s1 : SchedState)
    (h : schedTick cfg s t o = Except.ok s1) :
    runSched cfg s ((t, o) :: rest) = runSched cfg s1 rest := by
  show (match schedTick cfg s t o with
        | Except.error c => Except.error c
        | Except.ok s1 => runSched cfg s1 rest) = _
  rw [h]

theorem runSched_cons_error (cfg : SchedConfig) (s : SchedState) (t : ℚ) (o : UploadOutcome)
    (rest : List (ℚ × UploadOutcome)) (c : ℤ)
    (h : schedTick cfg s t o = Except.error c) :
    runSched cfg s ((t, o) :: rest) = Except.error c := by
  show (match schedTick cfg s t o with
        | Except.error c => Except.error c
        | Except.ok s1 => runSched cfg s1 rest) = _
  rw [h]

theorem attemptedOutcomes_nil (cfg : SchedConfig) (s : SchedState) :
    attemptedOutcomes cfg s [] = [] :=
  rfl

theorem attemptedOutcomes_cons_skip (cfg : SchedConfig) (s : SchedState) (t : ℚ)
    (o : UploadOutcome) (rest : List (ℚ × UploadOutcome))
    (hdue : ¬ s.uploadDelay ≤ t - s.timeUpdate) :
    attemptedOutcomes cfg s ((t, o) :: rest) = attemptedOutcomes cfg s rest := by
  simp [attemptedOutcomes, hdue]

theorem attemptedOutcomes_cons_ok (cfg : SchedConfig) (s : SchedState) (t : ℚ)
    (o : UploadOutcome) (rest : List (ℚ × UploadOutcome)) (s1 : SchedState)
    (hdue : s.uploadDelay ≤ t - s.timeUpdate) (h : applyOutcome cfg s t o = Except.ok s1) :
    attemptedOutcomes cfg s ((t, o) :: rest) = o :: attemptedOutcomes cfg s1 rest := by
  simp [attemptedOutcomes, hdue, h]

/-- Along any run that ends without a fatal exit, `numUploads` grows by
exactly the number of `success` outcomes among the attempts actually made. -/
theorem runSched_numUploads_count (cfg : SchedConfig) :
    ∀ (evs : List (ℚ × UploadOutcome)) (s s' : SchedState),
      runSched cfg s evs = Except.ok s' →
      s'.numUploads =
        s.numUploads + ((attemptedOutcomes cfg s evs).count UploadOutcome.success : ℤ) := by
  intro evs
  induction evs with
  | nil =>
      intro s s' h
      rw [runSched_nil] at h
      cases h
      simp [attemptedOutcomes_nil]
  | cons e rest ih =>
      obtain ⟨t, o⟩ := e
      intro s s' h
      by_cases hdue : s.uploadDelay ≤ t - s.timeUpdate
      · cases o with
        | success =>
            rw [runSched_cons_ok cfg s t _ rest _
                  (by rw [schedTick_due cfg s t _ hdue, applyOutcome_success])] at h
            rw [attemptedOutcomes_cons_ok cfg s t _ rest _ hdue (applyOutcome_success cfg s t)]
            have h2 := ih _ _ h
            simp only [List.count_cons] at h2 ⊢
            simp at h2 ⊢
            omega
        | rateLimited =>
            rw [runSched_cons_ok cfg s t _ rest _
                  (by rw [schedTick_due cfg s t _ hdue, applyOutcome_rateLimited])] at h
            rw [attemptedOutcomes_cons_ok cfg s t _ rest _ hdue (applyOutcome_rateLimited cfg s t)]
            have h2 := ih _ _ h
            simp only [List.count_cons] at h2 ⊢
            simp at h2 ⊢
            omega
        | fatal =>
            rw [runSched_cons_error cfg s t _ rest 1
                  (by rw [schedTick_due cfg s t _ hdue, applyOutcome_fatal])] at h
            cases h
      · rw [runSched_cons_ok cfg s t _ rest _ (schedTick_notDue cfg s t _ hdue)] at h
        rw [attemptedOutcomes_cons_skip cfg s t _ rest hdue]
        exact ih _ _ h

/-- The `finally` clause recomputes `exitNow` from the counter after every
attempt, and skipped ticks change nothing, so the relation between
`exitNow`, `maxUploads` and `numUploads` is preserved along any run. -/
theorem runSched_exitNow_inv (cfg : SchedConfig) :
    ∀ (evs : List (ℚ × UploadOutcome)) (s s' : SchedState),
      s.exitNow = (decide (0 < cfg.maxUploads) && decide (cfg.maxUploads ≤ s.numUploads)) →
      runSched cfg s evs = Except.ok s' →
      s'.exitNow = (decide (0 < cfg.maxUploads) && decide (cfg.maxUploads ≤ s'.numUploads)) := by
  intro evs
  induction evs with
  | nil =>
      intro s s' hinv h
      rw [runSched_nil] at h
      cases h
      exact hinv
  | cons e rest ih =>
      obtain ⟨t, o⟩ := e
      intro s s' hinv h
      by_cases hdue : s.uploadDelay ≤ t - s.timeUpdate
      · cases o with
        | success =>
            rw [runSched_cons_ok cfg s t _ rest _
                  (by rw [schedTick_due cfg s t _ hdue, applyOutcome_success])] at h
            exact ih _ _ rfl h
        | rateLimited =>
            rw [runSched_cons_ok cfg s t _ rest _
                  (by rw [schedTick_due cfg s t _ hdue, applyOutcome_rateLimited])] at h
            exact ih _ _ rfl h
        | fatal =>
            rw [runSched_cons_error cfg s t _ rest 1
                  (by rw [schedTick_due cfg s t _ hdue, applyOutcome_fatal])] at h
            cases h
      · rw [runSched_cons_ok cfg s t _ rest _ (schedTick_notDue cfg s t _ hdue)] at h
        exact ih _ _ hinv h

/-- With a nonnegative throttle penalty, a lower bound on the target
interval that is at most the base frequency is preserved along any run:
rate-limit attempts only add to it and successes reset it to exactly the
base frequency. -/
theorem runSched_interval_lb (cfg : SchedConfig) (hth : 0 ≤ cfg.ioThrottle) :
    ∀ (evs : List (ℚ × UploadOutcome)) (s s' : SchedState),
      cfg.ioFreq ≤ s.uploadDelay →
      runSched cfg s evs = Except.ok s' →
      cfg.ioFreq ≤ s'.uploadDelay := by
  intro evs
  induction evs with
  | nil =>
      intro s s' hlb h
      rw [runSched_nil] at h
      cases h
      exact hlb
  | cons e rest ih =>
      obtain ⟨t, o⟩ := e
      intro s s' hlb h
      by_cases hdue : s.uploadDelay ≤ t - s.timeUpdate
      · cases o with
        | success =>
            rw [runSched_cons_ok cfg s t _ rest _
                  (by rw [schedTick_due cfg s t _ hdue, applyOutcome_success])] at h
            exact ih _ _ (le_refl cfg.ioFreq) h
        | rateLimited =>
            rw [runSched_cons_ok cfg s t _ rest _
                  (by rw [schedTick_due cfg s t _ hdue, applyOutcome_rateLimited])] at h
            refine ih _ _ ?_ h
            calc cfg.ioFreq ≤ s.uploadDelay := hlb
              _ ≤ s.uploadDelay + cfg.ioThrottle := le_add_of_nonneg_right hth
        | fatal =>
            rw [runSched_cons_error cfg s t _ rest 1
                  (by rw [schedTick_due cfg s t _ hdue, applyOutcome_fatal])] at h
            cases h
      · rw [runSched_cons_ok cfg s t _ rest _ (schedTick_notDue cfg s t _ hdue)] at h
        exact ih _ _ hlb h

/-! ## Concrete configurations used by the scenario claims -/

/-- The scenario configuration of the end-to-end claim: base frequency
`FREQ = 600`, throttle penalty `THROTTLE = 120`, no upload cap, no cron. The
first-upload delay is taken equal to the base frequency so that the run
starts from a target interval of 600 as the scenario demands. -/
def cfg600 : SchedConfig :=
  { ioFreq := 600, ioDelay := 600, ioThrottle := 120, maxUploads := -1, ioUploadAndExit := false }

/-- Loop-entry state of the scenario runs, entering the loop at time 0. -/
def st600 : SchedState := initState cfg600 0

/-- The configuration obtained from the shipped defaults: `DEF_FREQ = 600`,
`DEF_DELAY = 300`, `DEF_THROTTLE = 120`, CLI `--uploads` default `-1`, no
cron flag. -/
def cfgDefault : SchedConfig :=
  { ioFreq := 600, ioDelay := 300, ioThrottle := 120, maxUploads := -1, ioUploadAndExit := false }

/-- Default configuration with the `--cron` flag set. -/
def cfgCron : SchedConfig :=
  { ioFreq := 600, ioDelay := 300, ioThrottle := 120, maxUploads := -1, ioUploadAndExit := true }

/-! ## Claims about the upload scheduler -/

/-- Claim C1: for every upload attempt made by the scheduler loop, a
`RateLimited` outcome increases the target interval by exactly the throttle
penalty, a `Success` outcome resets it to the base frequency, and both
outcomes reset the elapsed-time origin to the current time. Starting from
interval 600 with `THROTTLE = 120`, three consecutive `RateLimited`
outcomes yield intervals 720, 840, 960, and a following `Success` yields
600. -/
theorem attempt_interval_and_origin_update (cfg : SchedConfig) (s : SchedState) (t : ℚ)
    (hdue : s.uploadDelay ≤ t - s.timeUpdate) :
    (∃ s1, schedTick cfg s t UploadOutcome.rateLimited = Except.ok s1 ∧
        s1.uploadDelay = s.uploadDelay + cfg.ioThrottle ∧ s1.timeUpdate = t) ∧
    (∃ s2, schedTick cfg s t UploadOutcome.success = Except.ok s2 ∧
        s2.uploadDelay = cfg.ioFreq ∧ s2.timeUpdate = t) ∧
    (runSched cfg600 st600 [(600, UploadOutcome.rateLimited)]).map SchedState.uploadDelay
        = Except.ok 720 ∧
    (runSched cfg600 st600 [(600, UploadOutcome.rateLimited),
        (1320, UploadOutcome.rateLimited)]).map SchedState.uploadDelay = Except.ok 840 ∧
    (runSched cfg600 st600 [(600, UploadOutcome.rateLimited), (1320, UploadOutcome.rateLimited),
        (2160, UploadOutcome.rateLimited)]).map SchedState.uploadDelay = Except.ok 960 ∧
    (runSched cfg600 st600 [(600, UploadOutcome.rateLimited), (1320, UploadOutcome.rateLimited),
        (2160, UploadOutcome.rateLimited), (3120, UploadOutcome.success)]).map
        SchedState.uploadDelay = Except.ok 600 := by
  refine ⟨?_, ?_, ?_, ?_, ?_, ?_⟩
  · rw [schedTick_due cfg s t _ hdue, applyOutcome_rateLimited]
    exact ⟨_, rfl, rfl, rfl⟩
  · rw [schedTick_due cfg s t _ hdue, applyOutcome_success]
    exact ⟨_, rfl, rfl, rfl⟩
  all_goals norm_num [runSched, schedTick, applyOutcome, cfg600, st600, initState, Except.map]

theorem attempt_interval_and_origin_update_witness :
    ∃ s1, schedTick cfg600 st600 600 UploadOutcome.rateLimited = Except.ok s1 ∧
      s1.uploadDelay = st600.uploadDelay + cfg600.ioThrottle ∧ s1.timeUpdate = 600 :=
  (attempt_interval_and_origin_update cfg600 st600 600
    (by norm_num [cfg600, st600, initState])).1

/-- Claim C4: the uploads-completed counter increments by exactly 1 on every
`Success` outcome, never changes on a `RateLimited` or `Fatal` outcome, and
in every reachable state it equals the number of successful upload attempts
made so far. -/
theorem uploads_counter (cfg : SchedConfig) (s : SchedState) (t : ℚ)
    (evs : List (ℚ × UploadOutcome)) (s' : SchedState)
    (hdue : s.uploadDelay ≤ t - s.timeUpdate)
    (hrun : runSched cfg s evs = Except.ok s') :
    (∃ s1, schedTick cfg s t UploadOutcome.success = Except.ok s1 ∧
        s1.numUploads = s.numUploads + 1) ∧
    (∃ s2, schedTick cfg s t UploadOutcome.rateLimited = Except.ok s2 ∧
        s2.numUploads = s.numUploads) ∧
    schedTick cfg s t UploadOutcome.fatal = Except.error 1 ∧
    s'.numUploads =
      s.numUploads + ((attemptedOutcomes cfg s evs).count UploadOutcome.success : ℤ) := by
  refine ⟨?_, ?_, ?_, runSched_numUploads_count cfg evs s s' hrun⟩
  · rw [schedTick_due cfg s t _ hdue, applyOutcome_success]
    exact ⟨_, rfl, rfl⟩
  · rw [schedTick_due cfg s t _ hdue, applyOutcome_rateLimited]
    exact ⟨_, rfl, rfl⟩
  · rw [schedTick_due cfg s t _ hdue, applyOutcome_fatal]

theorem uploads_counter_witness :
    (⟨720, 1200, 1, false⟩ : SchedState).numUploads =
      st600.numUploads +
        ((attemptedOutcomes cfg600 st600
            [(600, UploadOutcome.success), (1200, UploadOutcome.rateLimited)]).count
          UploadOutcome.success : ℤ) :=
  (uploads_counter cfg600 st600 600
    [(600, UploadOutcome.success), (1200, UploadOutcome.rateLimited)]
    ⟨720, 1200, 1, false⟩ (by norm_num [cfg600, st600, initState])
    (by norm_num [runSched, schedTick, applyOutcome, cfg600, st600, initState])).2.2.2

/-- Claim C5: with a positive `maxUploads = m` the loop's stop flag is set
exactly when the counter reaches `m` and never earlier, and with
`maxUploads = -1` the upload count never causes the loop to stop. -/
theorem stops_exactly_at_max (cfg : SchedConfig) (t0 : ℚ)
    (evs : List (ℚ × UploadOutcome)) (s' : SchedState)
    (hrun : runSched cfg (initState cfg t0) evs = Except.ok s') :
    s'.exitNow = (decide (0 < cfg.maxUploads) && decide (cfg.maxUploads ≤ s'.numUploads)) ∧
    (0 < cfg.maxUploads → (s'.exitNow = true ↔ cfg.maxUploads ≤ s'.numUploads)) ∧
    (cfg.maxUploads = -1 → s'.exitNow = false) := by
  have h0 : (initState cfg t0).exitNow =
      (decide (0 < cfg.maxUploads) && decide (cfg.maxUploads ≤ (initState cfg t0).numUploads)) := by
    by_cases h : 0 < cfg.maxUploads
    · have h2 : ¬ cfg.maxUploads ≤ (initState cfg t0).numUploads := by
        simp [initState]
        omega
      simp [initState, h2]
    · simp [initState, h]
  have hmain := runSched_exitNow_inv cfg evs _ s' h0 hrun
  refine ⟨hmain, ?_, ?_⟩
  · intro hpos
    rw [hmain]
    simp [hpos]
  · intro hneg
    rw [hmain, hneg]
    simp

theorem stops_exactly_at_max_witness :
    (⟨600, 1500, 3, true⟩ : SchedState).exitNow =
      (decide (0 < (⟨600, 300, 120, 3, false⟩ : SchedConfig).maxUploads) &&
        decide ((⟨600, 300, 120, 3, false⟩ : SchedConfig).maxUploads ≤
          (⟨600, 1500, 3, true⟩ : SchedState).numUploads)) :=
  (stops_exactly_at_max ⟨600, 300, 120, 3, false⟩ 0
    [(300, UploadOutcome.success), (900, UploadOutcome.success), (1500, UploadOutcome.success)]
    ⟨600, 1500, 3, true⟩
    (by norm_num [runSched, schedTick, applyOutcome, initState])).1

/-- Claim C6 counterexample: with the shipped default configuration
(`FREQ = 600`, `DELAY = 300`) the loop starts with a target interval of 300,
so there is a point in the loop's execution — here the state after one
(not-yet-due) tick — where the target interval is strictly below the base
frequency. -/
theorem interval_ge_freq_counterexample :
    ∃ s', runSched cfgDefault (initState cfgDefault 0) [(1, UploadOutcome.success)] =
        Except.ok s' ∧
      s'.uploadDelay < cfgDefault.ioFreq := by
  refine ⟨initState cfgDefault 0, ?_, by norm_num [initState, cfgDefault]⟩
  norm_num [runSched, schedTick, initState, cfgDefault]

/-- Claim C6 (amended): once the target interval is at least the base
frequency — which holds from the first `Success` outcome onward, since a
success resets it to exactly the base frequency — it stays at least the
base frequency for the rest of the run, provided the throttle penalty is
nonnegative; on attempt ticks a `RateLimited` outcome is the only one that
increases it (by the throttle penalty) while a `Success` resets it to the
base frequency, and ticks with no attempt leave the whole state unchanged. -/
theorem interval_ge_freq_after_success (cfg : SchedConfig) (s : SchedState) (t : ℚ)
    (o : UploadOutcome) (evs : List (ℚ × UploadOutcome)) (s' : SchedState)
    (hth : 0 ≤ cfg.ioThrottle)
    (hs : cfg.ioFreq ≤ s.uploadDelay)
    (hrun : runSched cfg s evs = Except.ok s') :
    cfg.ioFreq ≤ s'.uploadDelay ∧
    (s.uploadDelay ≤ t - s.timeUpdate →
      (∃ s1, schedTick cfg s t UploadOutcome.rateLimited = Except.ok s1 ∧
          s1.uploadDelay = s.uploadDelay + cfg.ioThrottle ∧ s.uploadDelay ≤ s1.uploadDelay) ∧
      (∃ s2, schedTick cfg s t UploadOutcome.success = Except.ok s2 ∧
          s2.uploadDelay = cfg.ioFreq)) ∧
    (¬ s.uploadDelay ≤ t - s.timeUpdate → schedTick cfg s t o = Except.ok s) := by
  refine ⟨runSched_interval_lb cfg hth evs s s' hs hrun, ?_, schedTick_notDue cfg s t o⟩
  intro hdue
  constructor
  · rw [schedTick_due cfg s t _ hdue, applyOutcome_rateLimited]
    exact ⟨_, rfl, rfl, le_add_of_nonneg_right hth⟩
  · rw [schedTick_due cfg s t _ hdue, applyOutcome_success]
    exact ⟨_, rfl, rfl⟩

theorem interval_ge_freq_after_success_witness :
    cfg600.ioFreq ≤
      ((⟨720, 600, 0, false⟩ : SchedState)).uploadDelay :=
  (interval_ge_freq_after_success cfg600 st600 600 UploadOutcome.success
    [(600, UploadOutcome.rateLimited)] ⟨720, 600, 0, false⟩
    (by norm_num [cfg600]) (by norm_num [cfg600, st600, initState])
    (by norm_num [runSched, schedTick, applyOutcome, cfg600, st600, initState])).1

/-- Claim C7: a `RequestError` is never retried — raised during startup feed
verification it aborts the process with exit status 1 before the main loop,
and raised during a runtime upload attempt it ends the run with exit status
1 no matter what later iterations would have held — while a rate-limit
error never terminates the process. -/
theorem request_error_is_fatal {α β : Type} (cfg : SchedConfig) (s : SchedState) (t : ℚ)
    (rest : List (ℚ × UploadOutcome)) (e : α) (b1 b2 : β) (x y : Except α β)
    (hdue : s.uploadDelay ≤ t - s.timeUpdate) :
    startupVerifyFeeds (Except.error e) x y = Except.error 1 ∧
    startupVerifyFeeds (Except.ok b1) (Except.error e) y = Except.error 1 ∧
    startupVerifyFeeds (Except.ok b1) (Except.ok b2) (Except.error e) = Except.error 1 ∧
    runSched cfg s ((t, UploadOutcome.fatal) :: rest) = Except.error 1 ∧
    (∃ s1, schedTick cfg s t UploadOutcome.rateLimited = Except.ok s1) := by
  refine ⟨rfl, rfl, rfl, ?_, ?_⟩
  · exact runSched_cons_error cfg s t _ rest 1
      (by rw [schedTick_due cfg s t _ hdue, applyOutcome_fatal])
  · rw [schedTick_due cfg s t _ hdue, applyOutcome_rateLimited]
    exact ⟨_, rfl⟩

theorem request_error_is_fatal_witness :
    startupVerifyFeeds (Except.error 0) (Except.ok 0) (Except.ok (0 : ℕ)) =
        (Except.error 1 : Except ℤ (ℕ × ℕ × ℕ)) ∧
    runSched cfg600 st600 [(600, UploadOutcome.fatal), (1200, UploadOutcome.success)] =
        Except.error 1 := by
  have h := request_error_is_fatal cfg600 st600 600 [(1200, UploadOutcome.success)]
    (0 : ℕ) (0 : ℕ) (0 : ℕ) (Except.ok 0) (Except.ok 0)
    (by norm_num [cfg600, st600, initState])
  exact ⟨h.1, h.2.2.2.1⟩

/-- Claim C8 (code-bug evidence): in the shipped `sensemon.py` the body of
the upload `try` block is `time.sleep(10)` — the call that would hand the
rounded reading to the upload collaborator is commented out — so on a due
tick no value at all is handed to the collaborator and the block's outcome
is `success` regardless of the collaborator, contradicting the claim that
the reading is uploaded and the collaborator's outcome drives the
transition. -/
theorem try_body_hands_nothing (tempComp pressRaw humidRaw : ℚ) (ioRounding : ℕ) :
    (sensemonTryBody tempComp pressRaw humidRaw ioRounding).1 = [] ∧
    (sensemonTryBody tempComp pressRaw humidRaw ioRounding).2 = UploadOutcome.success :=
  ⟨rfl, rfl⟩

/-- Claim C9 (code-bug evidence): with the `--cron` flag set and the default
upload cap of `-1`, a successful upload attempt leaves the loop's stop flag
`false` — the `finally` clause recomputes `exitNow` from the cap and
overwrites the `exitNow = exitNow or ioUploadAndExit` assignment of the
`else` branch — so the loop does not exit after its one successful upload,
contradicting the documented run-once behavior of `--cron`. -/
theorem cron_does_not_exit_after_upload :
    ∃ s', schedTick cfgCron (initState cfgCron 0) 300 UploadOutcome.success = Except.ok s' ∧
      s'.numUploads = 1 ∧ s'.exitNow = false := by
  refine ⟨⟨600, 300, 1, false⟩, ?_, rfl, rfl⟩
  norm_num [schedTick, applyOutcome, initState, cfgCron]

end PiRed
